import Mathlib

/-!
Verification of the meeting-recorder core against its specification.

The definitions below are a shallow embedding of the Python sources:

* `src/providers/__init__.py` — the provider registry and `get_provider`;
* `src/api/main.py` — the `startup_event` orphan-job sweep;
* `src/recording/worker.py` — the worker main loop, the effective minimum
  duration, and the exception handling of `RecordingWorker.record`;
* `src/recording/ffmpeg_pipeline.py` — the fail-fast start of the muxer;
* `src/recording/detection.py` — `DetectionOrchestrator.check_all`;
* `src/scheduling/scheduler.py` — `convert_cron_weekday`;
* `src/scheduling/job_runner.py` — the retry policy and `queue_schedule`;
* `src/providers/jitsi.py` — the priority-based `wait_until_joined` poll.

Wall-clock instants are modelled as integral seconds measured from the
schedule window start; machine behaviour that the claims do not touch
(browser automation, subprocess management, the database session plumbing)
is abstracted into explicit observation records.
-/

namespace MeetingRecorder

/-! ## Job statuses (src/database/models.py, class JobStatus) -/

inductive JobStatus
  | queued
  | starting
  | joining
  | waiting_lobby
  | recording
  | finalizing
  | uploading
  | succeeded
  | failed
  | canceled
deriving DecidableEq, Repr

/-- Terminal statuses per the data-model invariant: {succeeded, failed, canceled}. -/
def JobStatus.isTerminal : JobStatus → Bool
  | .succeeded => true
  | .failed => true
  | .canceled => true
  | _ => false

/-! ## Provider registry (src/providers/__init__.py)

`_registry` is populated at module init by the two `register_provider`
calls at the bottom of the file; `src/providers/zoom.py` defines
`ZoomProvider` (whose `name` property returns "zoom") but the module never
registers it. -/

/-- The provider classes present in `src/providers/`. -/
inductive ProviderClass
  | jitsi
  | webex
  | zoom
deriving DecidableEq, Repr

/-- The `name` property of each provider class
(`JitsiProvider.name`, `WebexProvider.name`, `ZoomProvider.name`). -/
def providerClassName : ProviderClass → String
  | .jitsi => "jitsi"
  | .webex => "webex"
  | .zoom => "zoom"

/-- `_registry` after module init: only the two `register_provider` calls
at the bottom of `src/providers/__init__.py` run. -/
def providerRegistry : List (String × ProviderClass) :=
  [("jitsi", ProviderClass.jitsi), ("webex", ProviderClass.webex)]

/-- Python `str.lower()` restricted to ASCII, character by character
(all provider tags are ASCII). -/
def pyLower (s : String) : String :=
  String.mk (s.data.map Char.toLower)

/-- `get_provider(provider_name)`: dictionary lookup on the lower-cased
name; on a miss, raises `ValueError` listing the registry keys
(`", ".join(_registry.keys()) or "(none)"`). A hit returns a fresh
instance of the registered class, modelled by the class tag. -/
def get_provider (provider_name : String) : Except String ProviderClass :=
  match providerRegistry.lookup (pyLower provider_name) with
  | some provider_class => Except.ok provider_class
  | none =>
      let joined := String.intercalate ", " (providerRegistry.map Prod.fst)
      let available := if joined = "" then "(none)" else joined
      Except.error ("Unknown provider: " ++ provider_name ++ ". Available: " ++ available)

/-! ## Startup orphan sweep (src/api/main.py, startup_event) -/

/-- The columns of a persisted `RecordingJob` row that the orphan sweep
touches. -/
structure RecordingJobRow where
  job_id : String
  status : JobStatus
  error_message : Option String
deriving DecidableEq, Repr

/-- The `running_statuses` list in `startup_event`; note it omits
`JobStatus.UPLOADING`. -/
def running_statuses : List JobStatus :=
  [.queued, .starting, .joining, .waiting_lobby, .recording, .finalizing]

/-- The per-row effect of the cleanup loop in `startup_event`: a job whose
status is in `running_statuses` is rewritten to failed with the restart
message; any other row is left untouched. -/
def cleanupOrphan (job : RecordingJobRow) : RecordingJobRow :=
  if job.status ∈ running_statuses then
    { job with status := .failed, error_message := some "Job interrupted by server restart" }
  else job

/-- Observable actions of `startup_event`, in execution order. -/
inductive StartupAction
  | sweepOrphan (job_id : String)
  | armTrigger (trigger_id : String)
deriving DecidableEq, Repr

/-- The persisted state `startup_event` manipulates: the job table and the
scheduler's armed trigger set. -/
structure StartupState where
  jobs : List RecordingJobRow
  armed : List String
deriving DecidableEq, Repr

/-- The orphan-cleanup block of `startup_event`: queries jobs whose status
is in `running_statuses` and rewrites each to failed. -/
def cleanupOrphanedJobs (st : StartupState) : StartupState × List StartupAction :=
  ({ st with jobs := st.jobs.map cleanupOrphan },
   (st.jobs.filter (fun j => j.status ∈ running_statuses)).map
     (fun j => StartupAction.sweepOrphan j.job_id))

/-- `scheduler.start()` followed by `_load_schedules_from_db`
(src/scheduling/scheduler.py): arms a trigger keyed `schedule_<id>` for
every enabled schedule. -/
def schedulerStart (enabled_schedule_ids : List Nat) (st : StartupState) :
    StartupState × List StartupAction :=
  ({ st with armed := enabled_schedule_ids.map (fun i => "schedule_" ++ toString i) },
   enabled_schedule_ids.map (fun i => StartupAction.armTrigger ("schedule_" ++ toString i)))

/-- `startup_event`: the orphan cleanup runs to completion, then the
scheduler is started and the enabled schedules are armed. -/
def startup_event (enabled_schedule_ids : List Nat) (st : StartupState) :
    StartupState × List StartupAction :=
  let s1 := cleanupOrphanedJobs st
  let s2 := schedulerStart enabled_schedule_ids s1.1
  (s2.1, s1.2 ++ s2.2)

/-! ## Recording worker (src/recording/worker.py, RecordingWorker.record) -/

/-- The fields of `RecordingResult` that the claims inspect. -/
structure RecordingResultM where
  status : JobStatus
  error_code : Option String
  error_message : Option String
  diagnostic_data : Option String
deriving DecidableEq, Repr

/-- The effective minimum duration computed at the top of the main loop:
`job.min_duration_sec if not None else job.duration_sec`, then clamped down
to `job.duration_sec`. -/
def effectiveMinDuration (min_duration_sec : Option Nat) (duration_sec : Nat) : Nat :=
  let e := match min_duration_sec with
    | some m => m
    | none => duration_sec
  if e > duration_sec then duration_sec else e

/-- What the worker observes at the top of one main-loop iteration.
`stall_condition_met` abstracts the full stall test
(`stall_timeout > 0 ∧ elapsed ≥ stall_grace ∧` the output file has not
grown for `stall_timeout` seconds); `detection_positive` abstracts the
answer the detection orchestrator (auto mode) or the provider's legacy
`detect_meeting_end` probe (fixed mode) would give if consulted. -/
structure LoopObs where
  finish_requested : Bool
  ffmpeg_returncode : Option Int
  stall_condition_met : Bool
  elapsed : Nat
  cancel_requested : Bool
  detection_positive : Bool
deriving DecidableEq, Repr

/-- The possible outcomes of one main-loop iteration, in the order the
checks appear in the source. -/
inductive LoopDecision
  | finishBreak
  | ffmpegExitFail
  | stallFail
  | durationBreak
  | cancelRaise
  | detectionBreak
  | continueLoop
deriving DecidableEq, Repr

/-- One iteration of the worker main loop, mirroring the source order:
finish request, ffmpeg early exit, stall check, max-duration check, cancel
check, then — only once `elapsed ≥ effective_min_duration` — the detection
check. -/
def loopStep (duration_sec effective_min_duration : Nat) (o : LoopObs) : LoopDecision :=
  if o.finish_requested then .finishBreak
  else if o.ffmpeg_returncode ≠ none then .ffmpegExitFail
  else if o.stall_condition_met then .stallFail
  else if o.elapsed ≥ duration_sec then .durationBreak
  else if o.cancel_requested then .cancelRaise
  else if o.elapsed ≥ effective_min_duration then
    if o.detection_positive then .detectionBreak else .continueLoop
  else .continueLoop

/-- How the body of `record` terminates, as seen by its exception
handlers: normal completion, `asyncio.CancelledError` (raised at a
suspension point after `cancel_requested`, or for an early finish request),
or any other exception with its message and the `result.error_code` value
set before the raise (None for unexpected errors). -/
inductive RecordBodyOutcome
  | success
  | cancelledError
  | exception (message : String)
deriving DecidableEq, Repr

/-- The `except asyncio.CancelledError` / `except Exception` handlers of
`RecordingWorker.record`. Only the generic-exception branch collects
diagnostics (and only when a page is live); `CancelledError` is a
`BaseException` in Python ≥ 3.8 and takes the first branch, which does not
touch `result.diagnostic_data`. -/
def handleRecordOutcome (outcome : RecordBodyOutcome) (page_live : Bool)
    (diagnostics_dir : String) (result : RecordingResultM) : RecordingResultM :=
  match outcome with
  | .success => { result with status := .succeeded }
  | .cancelledError =>
      { result with
        status := .canceled
        error_code := some "CANCELED"
        error_message := some "Job was cancelled" }
  | .exception message =>
      let r := { result with
        status := .failed
        error_code := match result.error_code with
          | none => some "INTERNAL_ERROR"
          | some c => some c
        error_message := some message }
      if page_live then { r with diagnostic_data := some diagnostics_dir } else r

/-- The `result` value as initialised at the top of `record`, before the
try block runs. -/
def initialResult : RecordingResultM :=
  { status := .starting, error_code := none, error_message := none, diagnostic_data := none }

/-! ## Muxer fail-fast start (src/recording/ffmpeg_pipeline.py, FFmpegPipeline.start) -/

/-- `FFmpegPipeline.start()`. The subprocess's stderr is redirected to the
diagnostic log file while it runs (when a `log_path` was supplied); after
the one-second startup window, if the process has already exited the
method reads that file back and raises. The outer handler re-wraps the
error. Returns the outcome together with the files written
(path, content). -/
def ffmpegStart (exited_within_window : Bool) (stderr_text : String)
    (log_path : Option String) : Except String Unit × List (String × String) :=
  let files := match log_path with
    | some p => [(p, stderr_text)]
    | none => []
  if exited_within_window then
    let stderr_output := match log_path with
      | some _ => stderr_text
      | none => ""
    (Except.error ("Failed to start FFmpeg: FFmpeg failed to start: " ++ stderr_output), files)
  else
    (Except.ok (), files)

/-! ## Detection orchestrator (src/recording/detection.py, check_all) -/

inductive DetectorType
  | text_indicator
  | video_element
  | webrtc_connection
  | screen_freeze
  | audio_silence
  | url_change
deriving DecidableEq, Repr

/-- The fields of `DetectionResult` the orchestrator logic reads. -/
structure DetectionResultM where
  detector_type : DetectorType
  detected : Bool
  reason : String
deriving DecidableEq, Repr

/-- One registered detector as `check_all` sees it on a given call: its
`is_enabled` flag and the result its `check` coroutine produces (`none`
models `check` raising, which the orchestrator catches and skips). -/
structure DetectorM where
  enabled : Bool
  check : Option DetectionResultM
deriving DecidableEq, Repr

/-- The loop of `check_all`, carrying `triggered_count`, the local
`results` list and the orchestrator's persistent `detection_log`. In
non-dry-run mode the loop returns early as soon as `triggered_count`
reaches `min_detectors_agree`; after the loop, `should_end` is the voting
threshold, forced to false in dry-run mode. -/
def checkAllGo (dry_run : Bool) (min_detectors_agree : Nat) :
    List DetectorM → Nat → List DetectionResultM → List DetectionResultM →
    Bool × List DetectionResultM × List DetectionResultM
  | [], triggered_count, results, log =>
      (if dry_run then false else decide (triggered_count ≥ min_detectors_agree), results, log)
  | d :: rest, triggered_count, results, log =>
      if d.enabled then
        match d.check with
        | some r =>
            let results := results ++ [r]
            let log := log ++ [r]
            if r.detected then
              if dry_run = false ∧ triggered_count + 1 ≥ min_detectors_agree then
                (true, results, log)
              else
                checkAllGo dry_run min_detectors_agree rest (triggered_count + 1) results log
            else
              checkAllGo dry_run min_detectors_agree rest triggered_count results log
        | none => checkAllGo dry_run min_detectors_agree rest triggered_count results log
      else checkAllGo dry_run min_detectors_agree rest triggered_count results log

/-- `DetectionOrchestrator.check_all`, returning
`(should_end, results, detection_log)`. -/
def check_all (dry_run : Bool) (min_detectors_agree : Nat) (detectors : List DetectorM)
    (detection_log : List DetectionResultM) :
    Bool × List DetectionResultM × List DetectionResultM :=
  checkAllGo dry_run min_detectors_agree detectors 0 [] detection_log

/-- The number of enabled detectors whose `check` reports `detected` on
this call (counting no detector whose `check` raises). -/
def detectedCount (detectors : List DetectorM) : Nat :=
  (detectors.filter fun d =>
    d.enabled && (match d.check with | some r => r.detected | none => false)).length

/-- The results of the enabled detectors whose `check` does not raise, in
registration-priority order. -/
def enabledResults (detectors : List DetectorM) : List DetectionResultM :=
  detectors.filterMap fun d => if d.enabled then d.check else none

/-! ## Cron weekday conversion (src/scheduling/scheduler.py, convert_cron_weekday) -/

/-- `convert_day` inside `convert_cron_weekday`: 0 (Sun) ↦ 6, n ↦ n − 1. -/
def convert_day (day_num : Nat) : Nat :=
  if day_num = 0 then 6 else day_num - 1

/-- The loop of Python `str.split()` with no separator: `acc` is the
token being accumulated (empty if none). Splits on runs of whitespace and
drops empty tokens. -/
def splitWsGo (acc : List Char) : List Char → List (List Char)
  | [] => if acc = [] then [] else [acc]
  | c :: rest =>
      if c.isWhitespace then
        if acc = [] then splitWsGo [] rest else acc :: splitWsGo [] rest
      else splitWsGo (acc ++ [c]) rest

/-- Python `str.split()` with no separator. -/
def splitWs (l : List Char) : List (List Char) :=
  splitWsGo [] l

/-- The numeric value of a run of decimal digits (what `int(match.group())`
computes). -/
def natOfDigits (run : List Char) : Nat :=
  run.foldl (fun acc c => acc * 10 + (c.toNat - 48)) 0

/-- Emit the replacement for one completed run of digits (empty run:
nothing pending). -/
def flushDigitRun (run : List Char) : List Char :=
  if run = [] then [] else (Nat.repr (convert_day (natOfDigits run))).data

/-- The loop of the regex substitution on the weekday field: `run` is the
pending run of digits. -/
def subDigitRunsGo (run : List Char) : List Char → List Char
  | [] => flushDigitRun run
  | c :: rest =>
      if c.isDigit then subDigitRunsGo (run ++ [c]) rest
      else flushDigitRun run ++ c :: subDigitRunsGo [] rest

/-- The regex substitution on the weekday field: every maximal run of
digits is replaced by the decimal representation of `convert_day` of its
value; all other characters pass through. -/
def subDigitRuns (weekday : List Char) : List Char :=
  subDigitRunsGo [] weekday

/-- Python `" ".join(tokens)` on character lists. -/
def joinSpaces : List (List Char) → List Char
  | [] => []
  | [t] => t
  | t :: rest => t ++ ' ' :: joinSpaces rest

/-- `convert_cron_weekday`: split the expression into whitespace-separated
parts; anything but exactly five parts is returned unchanged; otherwise
the weekday field goes through the digit substitution and the five fields
are rejoined with single spaces. -/
def convert_cron_weekday (cron_expression : String) : String :=
  match splitWs cron_expression.data with
  | [minute, hour, day, month, weekday] =>
      String.mk (joinSpaces [minute, hour, day, month, subDigitRuns weekday])
  | _ => cron_expression

/-! ## Job runner retry policy (src/scheduling/job_runner.py) -/

def INITIAL_RETRY_DELAY_SEC : Nat := 15

def MAX_RETRY_DELAY_SEC : Nat := 300

def RETRYABLE_ERRORS : List String :=
  ["ERR_NAME_NOT_RESOLVED",
   "Name or service not known",
   "No address associated with hostname",
   "ConnectError",
   "TimeoutError",
   "net::ERR_",
   "NetworkError"]

/-- Whether `pattern` occurs as a contiguous run inside `l`. -/
def containsSub (pattern : List Char) : List Char → Bool
  | [] => pattern.isEmpty
  | c :: cs => pattern.isPrefixOf (c :: cs) || containsSub pattern cs

/-- Python `pattern in error_str` (substring containment). -/
def strContains (s pattern : String) : Bool :=
  containsSub pattern.data s.data

/-- `JobRunner._is_retryable_error`. -/
def is_retryable_error (error_message : String) : Bool :=
  RETRYABLE_ERRORS.any fun pattern => strContains error_message pattern

/-- What the retry branch of `_run_recording_with_retry` decides to do
when it fires. -/
structure RetryDecision where
  sleep_sec : Nat
  next_retry_delay : Nat
  rebuilt_duration_sec : Nat
deriving DecidableEq, Repr

/-- The failure handling of one attempt in `_run_recording_with_retry`
(times in whole seconds): when the error is retryable and the meeting-end
horizon has not passed, with more time remaining than the current delay,
the runner sleeps `retry_delay`, doubles the delay up to
`MAX_RETRY_DELAY_SEC`, and rebuilds the job with
`duration_sec = int(time_remaining)` where `time_remaining` is measured at
the failure, before the sleep. Returns `none` when no retry happens. -/
def retryStep (error_message : String) (now meeting_end_time retry_delay : Nat) :
    Option RetryDecision :=
  if is_retryable_error error_message = true ∧ now < meeting_end_time then
    let time_remaining := meeting_end_time - now
    if time_remaining > retry_delay then
      some ⟨retry_delay, min (retry_delay * 2) MAX_RETRY_DELAY_SEC, time_remaining⟩
    else none
  else none

/-- The fixed-duration deadline adjustment in `RecordingWorker.record`:
after joining, when `duration_mode == "fixed"` and `job.deadline_at` is
set, the job's `duration_sec` is recomputed as the whole seconds remaining
to the deadline; a non-positive remainder fails the job. -/
def adjustFixedDuration (deadline_at now : Int) : Option Int :=
  let remaining := deadline_at - now
  if remaining ≤ 0 then none else some remaining

/-! ## Job runner wait queue (src/scheduling/job_runner.py, queue_schedule) -/

/-- The runner state that `queue_schedule` reads and the tasks it spawns.
`pending_tasks` records the `_run_when_available` tasks created. -/
structure JobRunnerState where
  lock_locked : Bool
  queue : List Nat
  pending_tasks : List Nat
deriving DecidableEq, Repr

/-- `JobRunner.queue_schedule`: an id already in the wait queue is refused
(returns False, no task created); otherwise exactly one
`_run_when_available` task is created for it and True is returned. -/
def queue_schedule (st : JobRunnerState) (schedule_id : Nat) : Bool × JobRunnerState :=
  if schedule_id ∈ st.queue then (false, st)
  else (true, { st with pending_tasks := st.pending_tasks ++ [schedule_id] })

/-! ## Jitsi join polling (src/providers/jitsi.py, wait_until_joined) -/

/-- The fields of `JoinResult` (src/providers/base.py). -/
structure JoinResultM where
  success : Bool
  in_lobby : Bool
  error_code : Option String
  error_message : Option String
deriving DecidableEq, Repr

/-- What one iteration of the poll loop observes, all evaluated in phase 1
before any return: the in-meeting indicators, the first matching error
indicator (code and message), and the lobby indicators; plus whether the
password dialog is present and whether `apply_password` would succeed
(consulted only in the PASSWORD_REQUIRED special case). -/
structure JoinObs where
  in_meeting : Bool
  error_signal : Option (String × String)
  in_lobby : Bool
  password_dialog_present : Bool
  apply_password_ok : Bool
deriving DecidableEq, Repr

/-- The outcome of one poll iteration. -/
inductive JoinStep
  | ret (result : JoinResultM)
  | passwordRetry
  | keepWaiting
deriving DecidableEq, Repr

/-- Phase 2 of one poll iteration: return by priority
in_meeting > error > lobby; in the error case, a PASSWORD_REQUIRED signal
with an unused password and a visible dialog leads to an `apply_password`
retry instead of returning. -/
def joinPollStep (password : Option String) (password_attempted : Bool) (o : JoinObs) :
    JoinStep :=
  if o.in_meeting then
    .ret ⟨true, false, none, none⟩
  else
    match o.error_signal with
    | some (error_code, error_msg) =>
        if error_code = "PASSWORD_REQUIRED" ∧ password ≠ none ∧ password_attempted = false ∧
            o.password_dialog_present = true ∧ o.apply_password_ok = true then
          .passwordRetry
        else
          .ret ⟨false, false, some error_code, some error_msg⟩
    | none =>
        if o.in_lobby then .ret ⟨false, true, none, none⟩
        else .keepWaiting

/-- `JitsiProvider.wait_until_joined` over a finite sequence of per-
iteration observations; an exhausted sequence models the timeout elapsing
with nothing detected. -/
def wait_until_joined (password : Option String) (timeout_sec : Nat) :
    Bool → List JoinObs → JoinResultM
  | _, [] =>
      ⟨false, false, some "JOIN_TIMEOUT",
        some ("Timeout after " ++ toString timeout_sec ++ " seconds")⟩
  | password_attempted, o :: rest =>
      match joinPollStep password password_attempted o with
      | .ret r => r
      | .passwordRetry => wait_until_joined password timeout_sec true rest
      | .keepWaiting => wait_until_joined password timeout_sec password_attempted rest

/-! ## Theorems -/

/-- C1: the spec promises `get_provider(tag)` succeeds for every tag in
{jitsi, webex, zoom} with an adapter whose name is the tag, but
`src/providers/__init__.py` registers only jitsi and webex at module init;
`ZoomProvider` (name "zoom", src/providers/zoom.py) is never registered, so
`get_provider("zoom")` raises the descriptive ValueError instead. -/
theorem zoom_provider_unregistered :
    providerClassName ProviderClass.zoom = "zoom" ∧
    get_provider "jitsi" = Except.ok ProviderClass.jitsi ∧
    providerClassName ProviderClass.jitsi = "jitsi" ∧
    get_provider "webex" = Except.ok ProviderClass.webex ∧
    providerClassName ProviderClass.webex = "webex" ∧
    get_provider "zoom" = Except.error "Unknown provider: zoom. Available: jitsi, webex" :=
  ⟨rfl, rfl, rfl, rfl, rfl, rfl⟩

/-- C2 counterexample: a persisted job in status `uploading` — a
non-terminal status — is left untouched by the startup sweep, so after
`startup_event` a job can remain in a non-terminal status, contradicting
the claim that every non-terminal job (including uploading) is rewritten
to failed. -/
theorem uploading_job_survives_restart_sweep :
    (startup_event []
        { jobs := [⟨"deadbeef", JobStatus.uploading, none⟩], armed := [] }).1.jobs =
      [⟨"deadbeef", JobStatus.uploading, none⟩] ∧
    JobStatus.uploading.isTerminal = false :=
  ⟨rfl, rfl⟩

theorem cleanup_actions_are_sweeps (st : StartupState) :
    ∀ x ∈ (cleanupOrphanedJobs st).2, ∃ jid, x = StartupAction.sweepOrphan jid := by
  intro x hx
  simp only [cleanupOrphanedJobs, List.mem_map] at hx
  obtain ⟨j, _, rfl⟩ := hx
  exact ⟨j.job_id, rfl⟩

theorem scheduler_actions_are_arms (e : List Nat) (st : StartupState) :
    ∀ x ∈ (schedulerStart e st).2, ∃ tid, x = StartupAction.armTrigger tid := by
  intro x hx
  simp only [schedulerStart, List.mem_map] at hx
  obtain ⟨i, _, rfl⟩ := hx
  exact ⟨"schedule_" ++ toString i, rfl⟩

/-- C2 (amended): on process start, `startup_event` rewrites exactly the
jobs whose persisted status is in `running_statuses` = {queued, starting,
joining, waiting_lobby, recording, finalizing} to failed with
error_message "Job interrupted by server restart", and every such sweep
action precedes every trigger-arming action; jobs in status `uploading`
(non-terminal) are not swept and survive startup unchanged. -/
theorem orphan_sweep_spares_uploading (enabled : List Nat) (st : StartupState) :
    (startup_event enabled st).1.jobs = st.jobs.map cleanupOrphan ∧
    (∀ j : RecordingJobRow, j.status ∈ running_statuses →
        cleanupOrphan j = ⟨j.job_id, .failed, some "Job interrupted by server restart"⟩) ∧
    (∀ j : RecordingJobRow, j.status ∉ running_statuses → cleanupOrphan j = j) ∧
    (∀ j : RecordingJobRow, j.status = .uploading → cleanupOrphan j = j) ∧
    (∀ i k tid jid,
        (startup_event enabled st).2.get? i = some (StartupAction.armTrigger tid) →
        (startup_event enabled st).2.get? k = some (StartupAction.sweepOrphan jid) →
        k < i) := by
  refine ⟨rfl, ?_, ?_, ?_, ?_⟩
  · intro j hj
    simp [cleanupOrphan, hj]
  · intro j hj
    simp [cleanupOrphan, hj]
  · intro j hj
    have : j.status ∉ running_statuses := by
      rw [hj]; decide
    simp [cleanupOrphan, this]
  · intro i k tid jid hi hk
    have htrace : (startup_event enabled st).2 =
        (cleanupOrphanedJobs st).2 ++ (schedulerStart enabled (cleanupOrphanedJobs st).1).2 := rfl
    rw [htrace] at hi hk
    set A := (cleanupOrphanedJobs st).2 with hA
    set B := (schedulerStart enabled (cleanupOrphanedJobs st).1).2 with hB
    have hkA : k < A.length := by
      by_contra hge
      push_neg at hge
      rw [List.get?_append_right hge] at hk
      obtain ⟨tid2, ht⟩ := scheduler_actions_are_arms enabled (cleanupOrphanedJobs st).1 _
        (List.get?_mem hk)
      exact StartupAction.noConfusion ht
    have hiA : A.length ≤ i := by
      by_contra hlt
      push_neg at hlt
      rw [List.get?_append hlt] at hi
      obtain ⟨jid2, ht⟩ := cleanup_actions_are_sweeps st _ (List.get?_mem hi)
      exact StartupAction.noConfusion ht
    exact Nat.lt_of_lt_of_le hkA hiA

/-- C2 amended, witness: a concrete startup with one orphaned recording
job and one enabled schedule. -/
theorem orphan_sweep_spares_uploading_witness :
    (⟨"ab12cd34", JobStatus.recording, none⟩ : RecordingJobRow).status ∈ running_statuses ∧
    cleanupOrphan ⟨"ab12cd34", JobStatus.recording, none⟩ =
      ⟨"ab12cd34", JobStatus.failed, some "Job interrupted by server restart"⟩ :=
  ⟨by decide,
   (orphan_sweep_spares_uploading [7]
      { jobs := [⟨"ab12cd34", JobStatus.recording, none⟩], armed := [] }).2.1
     ⟨"ab12cd34", JobStatus.recording, none⟩ (by decide)⟩

/-- C3 counterexample: a cancellation observed while the page is live
produces status canceled with error CANCELED but `diagnostic_data` stays
`none` — the `except asyncio.CancelledError` branch of `record` never
calls `collect_diagnostics`, refuting the claim that diagnostics are
collected on cancel. -/
theorem cancel_path_skips_diagnostics :
    handleRecordOutcome .cancelledError true "diagnostics/deadbeef" initialResult =
      { status := .canceled, error_code := some "CANCELED",
        error_message := some "Job was cancelled", diagnostic_data := none } :=
  rfl

/-- C3 (amended): when `cancel_requested` is observed at a main-loop
suspension point (with no earlier break firing), the loop raises the
cancellation and `record` returns status canceled, error_code CANCELED and
error_message "Job was cancelled"; `diagnostic_data` is left untouched, so
no diagnostic bundle is collected on the cancel path even when a page was
live (diagnostics are collected only on the generic failure path). -/
theorem cancel_yields_canceled_without_diagnostics
    (duration_sec effective_min : Nat) (o : LoopObs) (page_live : Bool)
    (dir : String) (result : RecordingResultM)
    (hc : o.cancel_requested = true) (hf : o.finish_requested = false)
    (hr : o.ffmpeg_returncode = none) (hs : o.stall_condition_met = false)
    (hd : o.elapsed < duration_sec) :
    loopStep duration_sec effective_min o = .cancelRaise ∧
    handleRecordOutcome .cancelledError page_live dir result =
      { result with
          status := .canceled
          error_code := some "CANCELED"
          error_message := some "Job was cancelled" } ∧
    (handleRecordOutcome .cancelledError page_live dir result).diagnostic_data =
      result.diagnostic_data := by
  refine ⟨?_, rfl, rfl⟩
  simp [loopStep, hc, hf, hr, hs, Nat.not_le.mpr hd]

/-- C3 amended, witness: cancellation observed 120 s into a 600 s fixed
job with a live page. -/
theorem cancel_without_diagnostics_witness :
    loopStep 600 600
        { finish_requested := false, ffmpeg_returncode := none,
          stall_condition_met := false, elapsed := 120, cancel_requested := true,
          detection_positive := false } = .cancelRaise ∧
    handleRecordOutcome .cancelledError true "diagnostics/ab12cd34" initialResult =
      { initialResult with
          status := .canceled
          error_code := some "CANCELED"
          error_message := some "Job was cancelled" } ∧
    (handleRecordOutcome .cancelledError true "diagnostics/ab12cd34" initialResult).diagnostic_data =
      initialResult.diagnostic_data :=
  cancel_yields_canceled_without_diagnostics 600 600
    { finish_requested := false, ffmpeg_returncode := none,
      stall_condition_met := false, elapsed := 120, cancel_requested := true,
      detection_positive := false } true "diagnostics/ab12cd34" initialResult
    rfl rfl rfl rfl (by decide)

theorem effectiveMinDuration_le (m : Option Nat) (d : Nat) :
    effectiveMinDuration m d ≤ d := by
  unfold effectiveMinDuration
  cases m <;> dsimp only <;> split <;> omega

/-- C4: a failed attempt whose error is retryable, with
`now + delay < meeting_end_time`, makes the runner sleep `delay`, double
the delay capped at 300 s, and rebuild the job with `duration_sec` equal
to the seconds remaining to the meeting end; in the 600-second fixed
scenario failing at t = 3 s the runner sleeps 15 s, rebuilds with 597 s,
and the second attempt (joining at t = 18 s) runs with its fixed-mode
duration recomputed to 582 s. -/
theorem retry_policy_and_rebuild
    (msg : String) (now meeting_end retry_delay : Nat)
    (hretry : is_retryable_error msg = true)
    (hwin : now + retry_delay < meeting_end) :
    retryStep msg now meeting_end retry_delay =
      some ⟨retry_delay, min (retry_delay * 2) MAX_RETRY_DELAY_SEC, meeting_end - now⟩ ∧
    is_retryable_error "Name or service not known" = true ∧
    retryStep "Name or service not known" 3 600 INITIAL_RETRY_DELAY_SEC =
      some ⟨15, 30, 597⟩ ∧
    adjustFixedDuration 600 (3 + 15) = some 582 := by
  refine ⟨?_, rfl, rfl, rfl⟩
  unfold retryStep
  rw [if_pos ⟨hretry, by omega⟩, if_pos (by omega)]

/-- C4, witness: the documented scenario itself — first attempt fails at
t = 3 s with a DNS error, 600-second window, initial 15-second delay. -/
theorem retry_policy_and_rebuild_witness :
    is_retryable_error "Name or service not known" = true ∧
    3 + 15 < 600 ∧
    retryStep "Name or service not known" 3 600 15 = some ⟨15, 30, 597⟩ :=
  ⟨rfl, by omega,
   (retry_policy_and_rebuild "Name or service not known" 3 600 15 rfl (by omega)).1⟩

/-- C5: the worker's effective minimum duration is
`min(job.min_duration_sec ?? job.duration_sec, job.duration_sec)`; while
`elapsed` is below it the loop decision is independent of what any
detector or the legacy probe would report and is never a detection break,
while a pending cancellation (with no earlier break firing) still raises. -/
theorem effective_min_suppresses_detection
    (min_duration_sec : Option Nat) (duration_sec : Nat) (o : LoopObs)
    (hmin : o.elapsed < effectiveMinDuration min_duration_sec duration_sec) :
    effectiveMinDuration min_duration_sec duration_sec =
      min (min_duration_sec.getD duration_sec) duration_sec ∧
    (∀ b : Bool,
        loopStep duration_sec (effectiveMinDuration min_duration_sec duration_sec)
            { o with detection_positive := b } =
          loopStep duration_sec (effectiveMinDuration min_duration_sec duration_sec) o) ∧
    loopStep duration_sec (effectiveMinDuration min_duration_sec duration_sec) o ≠
      .detectionBreak ∧
    (o.cancel_requested = true → o.finish_requested = false →
      o.ffmpeg_returncode = none → o.stall_condition_met = false →
      loopStep duration_sec (effectiveMinDuration min_duration_sec duration_sec) o =
        .cancelRaise) := by
  have hle : effectiveMinDuration min_duration_sec duration_sec ≤ duration_sec :=
    effectiveMinDuration_le _ _
  have hnotmin : ¬ effectiveMinDuration min_duration_sec duration_sec ≤ o.elapsed :=
    Nat.not_le.mpr hmin
  have hnotdur : ¬ duration_sec ≤ o.elapsed := Nat.not_le.mpr (Nat.lt_of_lt_of_le hmin hle)
  refine ⟨?_, ?_, ?_, ?_⟩
  · cases min_duration_sec with
    | none => simp [effectiveMinDuration, Nat.min_def]
    | some v =>
        simp only [effectiveMinDuration, Option.getD, gt_iff_lt, Nat.min_def]
        split <;> split <;> omega
  · intro b
    simp [loopStep, hnotmin]
  · simp [loopStep, hnotmin]
    repeat' split
    all_goals simp
  · intro hc hf hr hs
    simp [loopStep, hc, hf, hr, hs, hnotmin, hnotdur]

/-- C5, witness: scenario 3 of the spec at t = 20 s — min 30 s, duration
600 s, the end signal already present but below the minimum; only a cancel
would act, and here none is pending, so the loop continues. -/
theorem effective_min_suppresses_detection_witness :
    (20 : Nat) < effectiveMinDuration (some 30) 600 ∧
    effectiveMinDuration (some 30) 600 = min ((some 30).getD 600) 600 ∧
    loopStep 600 (effectiveMinDuration (some 30) 600)
        { finish_requested := false, ffmpeg_returncode := none,
          stall_condition_met := false, elapsed := 20, cancel_requested := false,
          detection_positive := true } ≠ .detectionBreak :=
  ⟨by decide,
   (effective_min_suppresses_detection (some 30) 600
      { finish_requested := false, ffmpeg_returncode := none,
        stall_condition_met := false, elapsed := 20, cancel_requested := false,
        detection_positive := true } (by decide)).1,
   (effective_min_suppresses_detection (some 30) 600
      { finish_requested := false, ffmpeg_returncode := none,
        stall_condition_met := false, elapsed := 20, cancel_requested := false,
        detection_positive := true } (by decide)).2.2.1⟩

theorem detectedCount_cons (d : DetectorM) (rest : List DetectorM) :
    detectedCount (d :: rest) =
      (if d.enabled && (match d.check with | some r => r.detected | none => false)
        then 1 else 0) + detectedCount rest := by
  simp only [detectedCount, List.filter_cons]
  split <;> simp [Nat.add_comm]

theorem enabledResults_cons (d : DetectorM) (rest : List DetectorM) :
    enabledResults (d :: rest) =
      (match if d.enabled then d.check else none with
        | some r => [r] | none => []) ++ enabledResults rest := by
  simp only [enabledResults, List.filterMap_cons]
  split <;> simp_all

theorem checkAllGo_should_end (dry : Bool) (m : Nat) :
    ∀ (ds : List DetectorM) (count : Nat) (results log : List DetectionResultM),
      (checkAllGo dry m ds count results log).1 =
        (if dry then false else decide (count + detectedCount ds ≥ m)) := by
  intro ds
  induction ds with
  | nil =>
      intro count results log
      simp [checkAllGo, detectedCount]
  | cons d rest ih =>
      intro count results log
      rw [detectedCount_cons]
      by_cases he : d.enabled = true
      · cases hc : d.check with
        | none => simp [checkAllGo, he, hc, ih]
        | some r =>
            by_cases hdet : r.detected = true
            · simp only [checkAllGo, he, if_true, hc, hdet]
              by_cases hearly : dry = false ∧ count + 1 ≥ m
              · rw [if_pos hearly]
                obtain ⟨hdry, hcnt⟩ := hearly
                subst hdry
                simp only [Bool.false_eq_true, if_false, hdet, he]
                simp only [Bool.and_self, if_true]
                have : count + (1 + detectedCount rest) ≥ m := by omega
                simp [this]
              · rw [if_neg hearly]
                rw [ih]
                cases dry with
                | true => simp
                | false =>
                    simp only [Bool.false_eq_true, if_false, hdet, he, Bool.and_self, if_true]
                    have : count + 1 + detectedCount rest = count + (1 + detectedCount rest) := by
                      omega
                    rw [this]
            · simp only [Bool.not_eq_true] at hdet
              simp [checkAllGo, he, hc, hdet, ih]
      · simp only [Bool.not_eq_true] at he
        simp [checkAllGo, he, ih]

theorem checkAllGo_log_dry (m : Nat) :
    ∀ (ds : List DetectorM) (count : Nat) (results log : List DetectionResultM),
      (checkAllGo true m ds count results log).2.2 = log ++ enabledResults ds := by
  intro ds
  induction ds with
  | nil =>
      intro count results log
      simp [checkAllGo, enabledResults]
  | cons d rest ih =>
      intro count results log
      rw [enabledResults_cons]
      by_cases he : d.enabled = true
      · cases hc : d.check with
        | none => simp [checkAllGo, he, hc, ih]
        | some r =>
            by_cases hdet : r.detected = true
            · simp only [checkAllGo, he, if_true, hc, hdet]
              rw [if_neg (by simp)]
              rw [ih]
              simp [he]
            · simp only [Bool.not_eq_true] at hdet
              simp only [checkAllGo, he, if_true, hc, hdet, Bool.false_eq_true, if_false]
              rw [ih]
              simp [he]
      · simp only [Bool.not_eq_true] at he
        simp [checkAllGo, he, ih]

/-- C6: `check_all` returns `should_end = true` exactly when dry-run mode
is off and the number of enabled detectors reporting detected on this call
reaches `min_detectors_agree`; in dry-run mode `should_end` is always
false while every enabled detector's result is still appended to the
persistent detection log. -/
theorem check_all_votes (dry : Bool) (m : Nat) (ds : List DetectorM)
    (log : List DetectionResultM) :
    ((check_all dry m ds log).1 = true ↔ dry = false ∧ detectedCount ds ≥ m) ∧
    (dry = true → (check_all dry m ds log).2.2 = log ++ enabledResults ds) := by
  constructor
  · rw [check_all, checkAllGo_should_end]
    cases dry <;> simp
  · intro h
    subst h
    exact checkAllGo_log_dry m ds 0 [] log

/-- C6, witness: dry-run mode with one enabled text detector firing and
`min_detectors_agree = 1`: `should_end` is false yet the detection is
logged. -/
theorem check_all_votes_witness :
    (check_all true 1
        [{ enabled := true,
           check := some { detector_type := .text_indicator, detected := true,
                           reason := "meeting has ended" } }] []).2.2 =
      [] ++ enabledResults
        [{ enabled := true,
           check := some { detector_type := .text_indicator, detected := true,
                           reason := "meeting has ended" } }] :=
  (check_all_votes true 1
      [{ enabled := true,
         check := some { detector_type := .text_indicator, detected := true,
                         reason := "meeting has ended" } }] []).2 rfl

/-- C7 counterexample: the muxer subprocess exits within the startup
window; `start()` raises with the stderr text, but the worker's generic
exception handler surfaces error_code INTERNAL_ERROR (nothing in the code
assigns RECORDING_START_FAILED), contradicting the claimed error code. -/
theorem ffmpeg_start_failure_internal_error :
    (ffmpegStart true "pa_stream error" (some "diagnostics/ab12cd34/ffmpeg.log")).1 =
      Except.error "Failed to start FFmpeg: FFmpeg failed to start: pa_stream error" ∧
    (handleRecordOutcome
        (.exception "Failed to start FFmpeg: FFmpeg failed to start: pa_stream error")
        true "diagnostics/ab12cd34" initialResult).error_code = some "INTERNAL_ERROR" ∧
    (some "INTERNAL_ERROR" : Option String) ≠ some "RECORDING_START_FAILED" :=
  ⟨rfl, rfl, by decide⟩

/-- C7 (amended): if the muxer subprocess exits within the brief startup
window, `start()` fails fast with the subprocess's stderr captured to the
diagnostic log path, and the Job surfaces the generic default error_code
INTERNAL_ERROR (RECORDING_START_FAILED is defined in the taxonomy but
never assigned) with the start-failure text as error_message. -/
theorem ffmpeg_fail_fast (stderr_text log_file diag : String) (page_live : Bool)
    (result : RecordingResultM) (h : result.error_code = none) :
    (ffmpegStart true stderr_text (some log_file)).1 =
      Except.error ("Failed to start FFmpeg: FFmpeg failed to start: " ++ stderr_text) ∧
    (log_file, stderr_text) ∈ (ffmpegStart true stderr_text (some log_file)).2 ∧
    (handleRecordOutcome
        (.exception ("Failed to start FFmpeg: FFmpeg failed to start: " ++ stderr_text))
        page_live diag result).status = .failed ∧
    (handleRecordOutcome
        (.exception ("Failed to start FFmpeg: FFmpeg failed to start: " ++ stderr_text))
        page_live diag result).error_code = some "INTERNAL_ERROR" ∧
    (handleRecordOutcome
        (.exception ("Failed to start FFmpeg: FFmpeg failed to start: " ++ stderr_text))
        page_live diag result).error_message =
      some ("Failed to start FFmpeg: FFmpeg failed to start: " ++ stderr_text) := by
  refine ⟨rfl, by simp [ffmpegStart], ?_, ?_, ?_⟩ <;>
    cases page_live <;> simp [handleRecordOutcome, h]

/-- C7 amended, witness: concrete stderr and log path with a live page. -/
theorem ffmpeg_fail_fast_witness :
    initialResult.error_code = none ∧
    (ffmpegStart true "pa_stream error" (some "diagnostics/ab12cd34/ffmpeg.log")).1 =
      Except.error ("Failed to start FFmpeg: FFmpeg failed to start: " ++ "pa_stream error") ∧
    ("diagnostics/ab12cd34/ffmpeg.log", "pa_stream error") ∈
      (ffmpegStart true "pa_stream error" (some "diagnostics/ab12cd34/ffmpeg.log")).2 ∧
    (handleRecordOutcome
        (.exception ("Failed to start FFmpeg: FFmpeg failed to start: " ++ "pa_stream error"))
        true "diagnostics/ab12cd34" initialResult).status = .failed :=
  ⟨rfl,
   (ffmpeg_fail_fast "pa_stream error" "diagnostics/ab12cd34/ffmpeg.log"
      "diagnostics/ab12cd34" true initialResult rfl).1,
   (ffmpeg_fail_fast "pa_stream error" "diagnostics/ab12cd34/ffmpeg.log"
      "diagnostics/ab12cd34" true initialResult rfl).2.1,
   (ffmpeg_fail_fast "pa_stream error" "diagnostics/ab12cd34/ffmpeg.log"
      "diagnostics/ab12cd34" true initialResult rfl).2.2.1⟩


theorem splitWsGo_append_nonws :
    ∀ (cs acc l : List Char), (∀ c ∈ cs, c.isWhitespace = false) →
      splitWsGo acc (cs ++ l) = splitWsGo (acc ++ cs) l := by
  intro cs
  induction cs with
  | nil => intro acc l _; simp
  | cons c rest ih =>
      intro acc l hall
      have hc : c.isWhitespace = false := hall c (by simp)
      simp only [List.cons_append, splitWsGo, hc, Bool.false_eq_true, if_false,
        List.append_eq]
      rw [ih (acc ++ [c]) l (fun x hx => hall x (by simp [hx]))]
      simp

theorem splitWs_joinSpaces :
    ∀ ts : List (List Char),
      (∀ t ∈ ts, t ≠ [] ∧ ∀ c ∈ t, c.isWhitespace = false) →
      splitWs (joinSpaces ts) = ts := by
  intro ts
  induction ts with
  | nil => intro _; rfl
  | cons t rest ih =>
      intro hall
      obtain ⟨hne, hnws⟩ := hall t (by simp)
      cases rest with
      | nil =>
          show splitWsGo [] (joinSpaces [t]) = [t]
          have h0 : joinSpaces [t] = t ++ [] := by simp [joinSpaces]
          rw [h0, splitWsGo_append_nonws t [] [] hnws]
          simp [splitWsGo, hne]
      | cons r rs =>
          show splitWsGo [] (joinSpaces (t :: r :: rs)) = t :: r :: rs
          have h0 : joinSpaces (t :: r :: rs) = t ++ ' ' :: joinSpaces (r :: rs) := rfl
          rw [h0, splitWsGo_append_nonws t [] (' ' :: joinSpaces (r :: rs)) hnws]
          simp only [List.nil_append, splitWsGo]
          rw [if_pos (by decide), if_neg hne]
          have := ih (fun t2 ht2 => hall t2 (by simp [ht2]))
          rw [show splitWsGo [] (joinSpaces (r :: rs)) = splitWs (joinSpaces (r :: rs)) from rfl,
            this]

/-- C8: the weekday conversion maps the POSIX convention (0=Sun..6=Sat) to
the engine convention (0=Mon..6=Sun) — arithmetically, digit x ↦ (x+6) mod
7 — and is a bijection on {0..6} agreeing with the anchors 0↦6, 1↦0, 6↦5;
`convert_cron_weekday` rewrites only the weekday field, leaving the
minute, hour, day and month fields unchanged. -/
theorem cron_weekday_conversion
    (m h d mo w : List Char)
    (hm : m ≠ [] ∧ ∀ c ∈ m, c.isWhitespace = false)
    (hh : h ≠ [] ∧ ∀ c ∈ h, c.isWhitespace = false)
    (hdy : d ≠ [] ∧ ∀ c ∈ d, c.isWhitespace = false)
    (hmo : mo ≠ [] ∧ ∀ c ∈ mo, c.isWhitespace = false)
    (hw : w ≠ [] ∧ ∀ c ∈ w, c.isWhitespace = false) :
    (∀ x : Fin 7, convert_day x.1 = (x.1 + 6) % 7) ∧
    (∀ x y : Fin 7, convert_day x.1 = convert_day y.1 → x = y) ∧
    (∀ y : Fin 7, ∃ x : Fin 7, convert_day x.1 = y.1) ∧
    (convert_day 0 = 6 ∧ convert_day 1 = 0 ∧ convert_day 6 = 5) ∧
    convert_cron_weekday (String.mk (joinSpaces [m, h, d, mo, w])) =
      String.mk (joinSpaces [m, h, d, mo, subDigitRuns w]) ∧
    convert_cron_weekday "0 9 * * 1-5" = "0 9 * * 0-4" := by
  refine ⟨by decide, by decide, by decide, ⟨rfl, rfl, rfl⟩, ?_, rfl⟩
  unfold convert_cron_weekday
  have hsplit : splitWs (String.mk (joinSpaces [m, h, d, mo, w])).data =
      [m, h, d, mo, w] := by
    apply splitWs_joinSpaces
    intro t ht
    simp only [List.mem_cons, List.not_mem_nil, or_false] at ht
    rcases ht with rfl | rfl | rfl | rfl | rfl <;> assumption
  rw [hsplit]

/-- C8, witness: the five fields of "0 9 * * 1-5". -/
theorem cron_weekday_conversion_witness :
    convert_cron_weekday (String.mk (joinSpaces
        [['0'], ['9'], ['*'], ['*'], ['1', '-', '5']])) =
      String.mk (joinSpaces
        [['0'], ['9'], ['*'], ['*'], subDigitRuns ['1', '-', '5']]) :=
  (cron_weekday_conversion ['0'] ['9'] ['*'] ['*'] ['1', '-', '5']
    ⟨by decide, by decide⟩ ⟨by decide, by decide⟩ ⟨by decide, by decide⟩
    ⟨by decide, by decide⟩ ⟨by decide, by decide⟩).2.2.2.2.1

theorem wait_until_joined_timeout (password : Option String) (t : Nat) :
    ∀ obs : List JoinObs,
      (∀ ob ∈ obs, ob.in_meeting = false ∧ ob.error_signal = none ∧ ob.in_lobby = false) →
      ∀ att : Bool, wait_until_joined password t att obs =
        ⟨false, false, some "JOIN_TIMEOUT",
          some ("Timeout after " ++ toString t ++ " seconds")⟩ := by
  intro obs
  induction obs with
  | nil => intro _ att; rfl
  | cons ob rest ih =>
      intro hall att
      obtain ⟨h1, h2, h3⟩ := hall ob (by simp)
      have hrest : ∀ ob2 ∈ rest,
          ob2.in_meeting = false ∧ ob2.error_signal = none ∧ ob2.in_lobby = false := by
        intro ob2 hob2
        exact hall ob2 (by simp [hob2])
      simp only [wait_until_joined, joinPollStep, h1, h2, h3, Bool.false_eq_true, if_false]
      exact ih hrest att

/-- C9: every poll iteration of `wait_until_joined` evaluates the
in-meeting, error and lobby signals together (all are fields of the same
per-iteration observation) and returns by priority
in_meeting > error > lobby: an in-meeting signal returns success even with
simultaneous error or lobby signals; with an error signal present the
iteration never yields the lobby result (it returns the error, or re-polls
once after applying a supplied password); the lobby result occurs only
when neither higher-priority signal is present; and a timeout with no
signal ever detected returns failure with error_code JOIN_TIMEOUT. -/
theorem join_priority
    (password : Option String) (attempted : Bool) (o : JoinObs)
    (timeout_sec : Nat) (obs : List JoinObs) :
    (o.in_meeting = true →
      joinPollStep password attempted o = .ret ⟨true, false, none, none⟩) ∧
    (∀ c msg, o.in_meeting = false → o.error_signal = some (c, msg) →
      joinPollStep password attempted o = .passwordRetry ∨
      joinPollStep password attempted o = .ret ⟨false, false, some c, some msg⟩) ∧
    (∀ r, joinPollStep password attempted o = .ret r → r.in_lobby = true →
      o.in_meeting = false ∧ o.error_signal = none ∧ o.in_lobby = true) ∧
    ((∀ ob ∈ obs, ob.in_meeting = false ∧ ob.error_signal = none ∧ ob.in_lobby = false) →
      ∀ att : Bool, wait_until_joined password timeout_sec att obs =
        ⟨false, false, some "JOIN_TIMEOUT",
          some ("Timeout after " ++ toString timeout_sec ++ " seconds")⟩) := by
  refine ⟨?_, ?_, ?_, wait_until_joined_timeout password timeout_sec obs⟩
  · intro h
    simp [joinPollStep, h]
  · intro c msg h1 h2
    by_cases hpw : c = "PASSWORD_REQUIRED" ∧ password ≠ none ∧ attempted = false ∧
        o.password_dialog_present = true ∧ o.apply_password_ok = true
    · left
      simp [joinPollStep, h1, h2, hpw]
    · right
      simp [joinPollStep, h1, h2, hpw]
  · intro r hr hlob
    by_cases him : o.in_meeting = true
    · simp only [joinPollStep, him, if_true] at hr
      cases hr
      simp at hlob
    · simp only [Bool.not_eq_true] at him
      cases herr : o.error_signal with
      | some pair =>
          obtain ⟨c, msg⟩ := pair
          simp only [joinPollStep, him, Bool.false_eq_true, if_false, herr] at hr
          split at hr
          · cases hr
          · cases hr
            simp at hlob
      | none =>
          refine ⟨him, rfl, ?_⟩
          simp only [joinPollStep, him, Bool.false_eq_true, if_false, herr] at hr
          by_cases hlb : o.in_lobby = true
          · exact hlb
          · simp only [Bool.not_eq_true] at hlb
            rw [if_neg (by simp [hlb])] at hr
            cases hr

/-- C9, witness: an iteration where the in-meeting, error and lobby
signals are all simultaneously present still returns success. -/
theorem join_priority_witness :
    ({ in_meeting := true, error_signal := some ("PASSWORD_REQUIRED", "Password required"),
       in_lobby := true, password_dialog_present := true,
       apply_password_ok := true } : JoinObs).in_meeting = true ∧
    joinPollStep none false
        { in_meeting := true, error_signal := some ("PASSWORD_REQUIRED", "Password required"),
          in_lobby := true, password_dialog_present := true, apply_password_ok := true } =
      .ret ⟨true, false, none, none⟩ :=
  ⟨rfl,
   (join_priority none false
      { in_meeting := true, error_signal := some ("PASSWORD_REQUIRED", "Password required"),
        in_lobby := true, password_dialog_present := true, apply_password_ok := true }
      60 []).1 rfl⟩

/-- C10: `queue_schedule` returns False for an id already in the wait
queue and changes nothing (no second waiter or execution is created);
for an id not in the queue it returns True and creates exactly one
`_run_when_available` execution task, leaving queue and lock untouched. -/
theorem queue_schedule_single_execution (st : JobRunnerState) (i : Nat) :
    (i ∈ st.queue → queue_schedule st i = (false, st)) ∧
    (i ∉ st.queue →
      (queue_schedule st i).1 = true ∧
      (queue_schedule st i).2.pending_tasks = st.pending_tasks ++ [i] ∧
      (queue_schedule st i).2.queue = st.queue ∧
      (queue_schedule st i).2.lock_locked = st.lock_locked) := by
  constructor
  · intro h
    simp [queue_schedule, h]
  · intro h
    simp [queue_schedule, h]

/-- C10, witness: id 7 is already queued and is refused; id 8 is new and
spawns one task. -/
theorem queue_schedule_single_execution_witness :
    (7 : Nat) ∈ ([7, 9] : List Nat) ∧
    queue_schedule { lock_locked := true, queue := [7, 9], pending_tasks := [] } 7 =
      (false, { lock_locked := true, queue := [7, 9], pending_tasks := [] }) ∧
    (8 : Nat) ∉ ([7, 9] : List Nat) ∧
    (queue_schedule { lock_locked := true, queue := [7, 9], pending_tasks := [] } 8).2.pending_tasks =
      [] ++ [8] :=
  ⟨by decide,
   (queue_schedule_single_execution { lock_locked := true, queue := [7, 9], pending_tasks := [] } 7).1
     (by decide),
   by decide,
   ((queue_schedule_single_execution { lock_locked := true, queue := [7, 9], pending_tasks := [] } 8).2
     (by decide)).2.1⟩

end MeetingRecorder
